import Mathlib

/-!
Shallow embedding of `src/utils/analytics.ts` (client-side analytics helper).

The module exposes:
* `getDeviceType` — user-agent / viewport-width device sniffing;
* `waitForGtag` — a bounded poll (default 50 attempts at 100ms) for `window.gtag`;
* `trackEvent` — enrich a property bag with a timestamp and send it to gtag,
  catching any exception the gtag call throws;
* `initScrollTracking` — a debounced scroll-depth tracker over two pieces of
  module state (`maxScrollDepth`, `scrollTimeout`);
* `trackSectionView` — a one-shot IntersectionObserver-based section tracker.

Browser state (window size, user agent, gtag availability, timers, observer
callbacks) is made explicit.  JavaScript numbers that stay integral are
modelled as `Nat`/`Int`; `Math.round` of the scroll ratio is modelled as exact
rational rounding (`jsRound`), which agrees with the float computation for the
page geometries used here.
-/

/-- A character-list prefix test, `Bool`-valued so it evaluates on literals. -/
def isPrefixList (p s : List Char) : Bool :=
  match p, s with
  | [], _ => true
  | _ :: _, [] => false
  | a :: p', b :: s' => a == b && isPrefixList p' s'

/-- Substring occurrence test on character lists: models JavaScript regex
matching of a literal alternative such as `/tablet|ipad|playbook|silk/`
against a string. -/
def isInfixList (p s : List Char) : Bool :=
  isPrefixList p s ||
    match s with
    | [] => false
    | _ :: s' => isInfixList p s'

/-- Models `String.prototype.toLowerCase` (the user agents considered here are
ASCII). -/
def toLowerStr (s : String) : String := String.mk (s.data.map Char.toLower)

/-- Result type of `getDeviceType`: the literal union
`'mobile' | 'tablet' | 'desktop'`. -/
inductive DeviceType where
  | mobile
  | tablet
  | desktop
deriving DecidableEq, Repr

/-- The browser facts `getDeviceType` reads: whether `window` exists,
`window.innerWidth`, and `navigator.userAgent`. -/
structure BrowserEnv where
  hasWindow : Bool
  innerWidth : Nat
  userAgent : String

/-- Alternatives of the mobile regex
`/mobile|android|iphone|ipod|blackberry|iemobile|opera mini/i`. -/
def mobileRegexPatterns : List String :=
  ["mobile", "android", "iphone", "ipod", "blackberry", "iemobile", "opera mini"]

/-- Alternatives of the tablet regex `/tablet|ipad|playbook|silk/i`. -/
def tabletRegexPatterns : List String :=
  ["tablet", "ipad", "playbook", "silk"]

/-- `RegExp.prototype.test` for a regex that is an alternation of literal
substrings (the `i` flag is redundant: the code lowercases the user agent
first and the patterns are lowercase). -/
def testPatterns (patterns : List String) (s : String) : Bool :=
  patterns.any (fun p => isInfixList p.data s.data)

/-- `getDeviceType` from `analytics.ts`:
SSR guard, then mobile regex, then tablet regex or `768 <= width < 1024`,
then pure width thresholds. -/
def getDeviceType (env : BrowserEnv) : DeviceType :=
  if env.hasWindow = false then DeviceType.desktop
  else
    let width := env.innerWidth
    let userAgent := toLowerStr env.userAgent
    if testPatterns mobileRegexPatterns userAgent = true then DeviceType.mobile
    else if testPatterns tabletRegexPatterns userAgent = true ∨
        (768 ≤ width ∧ width < 1024) then DeviceType.tablet
    else if width < 768 then DeviceType.mobile
    else if width < 1024 then DeviceType.tablet
    else DeviceType.desktop

/-- One tick of the `setInterval` loop in `waitForGtag`, entered with the
already-incremented attempt counter.  `avail n` says whether `window.gtag`
is set at the `n`-th tick.  The result is the tick at which the callback was
invoked (`some`), or `none` when the loop cleared itself after reaching
`maxAttempts` without ever seeing gtag. -/
def waitForGtagFrom (avail : Nat → Bool) (maxAttempts : Nat) (attempts : Nat) : Option Nat :=
  if avail attempts then some attempts
  else if _h : attempts ≥ maxAttempts then none
  else waitForGtagFrom avail maxAttempts (attempts + 1)
termination_by maxAttempts - attempts
decreasing_by omega

/-- `waitForGtag` from `analytics.ts`: the interval counts attempts from 1. -/
def waitForGtag (avail : Nat → Bool) (maxAttempts : Nat) : Option Nat :=
  waitForGtagFrom avail maxAttempts 1

/-- JSON-serializable property values passed to `trackEvent`. -/
inductive JSValue where
  | vStr (s : String)
  | vNum (n : Int)
  | vBool (b : Bool)
deriving DecidableEq, Repr

/-- A JavaScript object used as a property bag: a partial map from keys. -/
def PropBag : Type := String → Option JSValue

/-- The empty object (also what `{...undefined}` spreads to). -/
def emptyBag : PropBag := fun _ => none

/-- The `enrichedProperties` object built by `trackEvent`:
`{ ...properties, timestamp: new Date().toISOString() }`.
The spread copies every caller key; the trailing `timestamp` entry overwrites
any caller-supplied `timestamp`. -/
def enrichedProperties (properties : Option PropBag) (now : String) : PropBag :=
  fun key =>
    if key = "timestamp" then some (JSValue.vStr now)
    else (properties.getD emptyBag) key

/-- One delivered gtag event: `window.gtag('event', eventName, props)`. -/
structure SentEvent where
  name : String
  props : PropBag

/-- Observable effects of one `trackEvent` call: events delivered to gtag and
messages written with `console.error`. -/
structure SendLog where
  sent : List SentEvent
  errors : List String

/-- Environment of a `trackEvent` call: whether `window.gtag` is set at call
time, whether it is set at each later poll tick, and what calling it does
(returns, or throws with a message). -/
structure GtagEnv where
  availNow : Bool
  availAt : Nat → Bool
  callResult : Except String Unit

/-- The `console.error('❌ GA4 tracking error:', e)` message. -/
def errMsg (e : String) : String := "❌ GA4 tracking error: " ++ e

/-- The raw `window.gtag('event', eventName, enrichedProperties)` call:
either delivers the event or throws. -/
def callGtag (env : GtagEnv) (eventName : String) (props : PropBag) : Except String SentEvent :=
  match env.callResult with
  | Except.ok _ => Except.ok { name := eventName, props := props }
  | Except.error e => Except.error e

/-- The `sendEvent` closure in `trackEvent`: re-checks `window.gtag`, then
calls it inside `try { ... } catch (e) { console.error(...) }`.  The
`Except` in the result type is where an uncaught exception would surface;
the catch clause converts every throw into an `Except.ok` log entry. -/
def sendEvent (env : GtagEnv) (gtagAvailable : Bool) (eventName : String) (props : PropBag) :
    Except String SendLog :=
  if gtagAvailable then
    match callGtag env eventName props with
    | Except.ok ev => Except.ok { sent := [ev], errors := [] }
    | Except.error e => Except.ok { sent := [], errors := [errMsg e] }
  else Except.ok { sent := [], errors := [] }

/-- `trackEvent` from `analytics.ts`: build `enrichedProperties`, then send
immediately when gtag is present, otherwise hand `sendEvent` to
`waitForGtag` (default budget 50); if the poll gives up nothing is sent. -/
def trackEvent (env : GtagEnv) (eventName : String) (properties : Option PropBag)
    (now : String) : Except String SendLog :=
  let enriched := enrichedProperties properties now
  if env.availNow then
    sendEvent env env.availNow eventName enriched
  else
    match waitForGtag env.availAt 50 with
    | some n => sendEvent env (env.availAt n) eventName enriched
    | none => Except.ok { sent := [], errors := [] }

/-- Exact rounding of the rational `num / den` the way `Math.round` rounds
(half-up), valid for `den > 0`:
`Math.round(num/den) = ⌊(2*num + den) / (2*den)⌋`. -/
def jsRound (num den : Int) : Int := Int.fdiv (2 * num + den) (2 * den)

/-- The `scrollPercent` computation in `trackScroll`:
`Math.round((scrollTop / (documentHeight - windowHeight)) * 100)`. -/
def scrollPercent (windowHeight documentHeight scrollTop : Nat) : Int :=
  jsRound ((scrollTop : Int) * 100) ((documentHeight : Int) - (windowHeight : Int))

/-- Data captured by one scheduled debounce callback: the `scrollPercent` the
closure captured, plus (ghost instrumentation) the value `maxScrollDepth`
had when the sample was taken, recorded so the emission invariant can be
stated. -/
structure Sched where
  percent : Int
  maxBefore : Int
deriving DecidableEq, Repr

/-- State of the scroll-tracking part of the module: the two module-level
variables `maxScrollDepth` and `scrollTimeout`, together with the browser's
set of live timers (id and captured callback data), the id `setTimeout`
hands out next, and the `LandingPg_Scroll` emissions so far. -/
structure ScrollState where
  maxScrollDepth : Int
  scrollTimeout : Option Nat
  timers : List (Nat × Sched)
  nextTimerId : Nat
  emitted : List Sched
deriving DecidableEq, Repr

/-- Module state at load: `maxScrollDepth = 0`, `scrollTimeout = null`, no
timers.  Browser timer ids are positive, so the first id is 1 (the code's
`if (scrollTimeout)` truthiness test relies on ids being nonzero). -/
def scrollInit : ScrollState :=
  { maxScrollDepth := 0
    scrollTimeout := none
    timers := []
    nextTimerId := 1
    emitted := [] }

/-- The `trackScroll` listener body: compute `scrollPercent`; when it strictly
exceeds `maxScrollDepth`, record the new maximum, `clearTimeout` the id held
in `scrollTimeout` (if any), and schedule a fresh 500ms callback; otherwise
do nothing. -/
def trackScroll (s : ScrollState) (windowHeight documentHeight scrollTop : Nat) : ScrollState :=
  let scrollPct := scrollPercent windowHeight documentHeight scrollTop
  if scrollPct > s.maxScrollDepth then
    let cleared :=
      match s.scrollTimeout with
      | some id => s.timers.filter (fun t => !(t.1 == id))
      | none => s.timers
    { maxScrollDepth := scrollPct
      scrollTimeout := some s.nextTimerId
      timers := cleared ++ [(s.nextTimerId, { percent := scrollPct, maxBefore := s.maxScrollDepth })]
      nextTimerId := s.nextTimerId + 1
      emitted := s.emitted }
  else s

/-- The browser fires timer `id` (if still pending): the debounce callback
runs `trackEvent('LandingPg_Scroll', ...)` with its captured percent, and
the timer leaves the pending set. -/
def fireTimer (s : ScrollState) (id : Nat) : ScrollState :=
  match s.timers.find? (fun t => t.1 == id) with
  | some t =>
      { s with
        timers := s.timers.filter (fun u => !(u.1 == id))
        emitted := s.emitted ++ [t.2] }
  | none => s

/-- Events the environment can deliver after `initScrollTracking`: a scroll
sample (the geometry `trackScroll` reads) or the elapse of a timeout. -/
inductive PageEvent where
  | scroll (windowHeight documentHeight scrollTop : Nat)
  | timerFires (id : Nat)
deriving DecidableEq, Repr

/-- One step of the event loop for the scroll tracker. -/
def scrollStep (s : ScrollState) (e : PageEvent) : ScrollState :=
  match e with
  | PageEvent.scroll wh dh st => trackScroll s wh dh st
  | PageEvent.timerFires id => fireTimer s id

/-- Run a whole event sequence from page load. -/
def runScroll (events : List PageEvent) : ScrollState :=
  events.foldl scrollStep scrollInit

/-- One IntersectionObserver entry as the callback reads it. -/
structure Entry where
  isIntersecting : Bool
deriving DecidableEq, Repr

/-- State of one observer created by `trackSectionView`: the captured
`sectionId`/`eventName`, whether it is still connected, and the
`trackEvent (eventName, { section_id })` calls it has made. -/
structure ObserverState where
  sectionId : String
  eventName : String
  connected : Bool
  calls : List (String × String)
deriving DecidableEq, Repr

/-- The observer callback in `trackSectionView`: `entries.forEach` emits for
every intersecting entry and disconnects; `forEach` keeps iterating over
the remaining entries of the same batch after a disconnect. -/
def sectionObserverCallback (s : ObserverState) (entries : List Entry) : ObserverState :=
  entries.foldl
    (fun acc entry =>
      if entry.isIntersecting then
        { acc with
          connected := false
          calls := acc.calls ++ [(acc.eventName, acc.sectionId)] }
      else acc) s

/-- Browser delivery of callback batches: a batch reaches the callback only
while the observer is connected (`disconnect` stops future callbacks, not
the iteration already in progress). -/
def observerDeliver (s : ObserverState) (batches : List (List Entry)) : ObserverState :=
  batches.foldl
    (fun acc batch =>
      if acc.connected then sectionObserverCallback acc batch else acc) s

/-- `trackSectionView` from `analytics.ts`: `document.getElementById`
(`doc` says which ids resolve), early return when the element is missing,
otherwise create and attach an observer.  The module state `s` is threaded
to make the frame condition of the early return statable. -/
def trackSectionView (doc : String → Bool) (sectionId eventName : String) (s : ScrollState) :
    Option ObserverState × ScrollState :=
  if doc sectionId = false then (none, s)
  else
    (some { sectionId := sectionId, eventName := eventName, connected := true, calls := [] }, s)

/-! ### Concrete inputs used by the witnesses -/

/-- A desktop browser user agent matching neither regex. -/
def envFirefox : BrowserEnv :=
  { hasWindow := true, innerWidth := 500, userAgent := "Mozilla Gecko Firefox" }

/-- A tablet user agent on a wide (>= 1024) viewport. -/
def envIpad : BrowserEnv :=
  { hasWindow := true, innerWidth := 1920, userAgent := "Mozilla iPad" }

/-- A gtag availability schedule where gtag appears at the third poll. -/
def availThird : Nat → Bool := fun n => decide (n = 3)

/-- gtag present at call time and calls to it succeed. -/
def envOkNow : GtagEnv :=
  { availNow := true, availAt := fun _ => false, callResult := Except.ok () }

/-- gtag present at call time but calling it throws. -/
def envErrNow : GtagEnv :=
  { availNow := true, availAt := fun _ => false, callResult := Except.error "boom" }

/-- A caller property bag that carries its own (stale) timestamp. -/
def propsWithStaleTs : PropBag :=
  fun key =>
    if key = "cta_position" then some (JSValue.vStr "hero")
    else if key = "timestamp" then some (JSValue.vStr "stale")
    else none

/-- The state after one scroll sample that raised the maximum to 50. -/
def s1ex : ScrollState := scrollStep scrollInit (PageEvent.scroll 100 300 100)

/-! ### Helper lemmas -/

/-- One-step unfolding of the poll loop, with the cap test as a plain `if`. -/
theorem waitForGtagFrom_unfold (avail : Nat → Bool) (maxAttempts attempts : Nat) :
    waitForGtagFrom avail maxAttempts attempts =
      if avail attempts then some attempts
      else if attempts ≥ maxAttempts then none
      else waitForGtagFrom avail maxAttempts (attempts + 1) := by
  rw [waitForGtagFrom]
  simp only [dite_eq_ite]

/-- If the poll loop entered at tick `a` invokes the callback at tick `n`,
then `n` lies between `a` and the cap, gtag is present at tick `n`, and at
no earlier polled tick. -/
theorem waitForGtagFrom_some_spec (avail : Nat → Bool) (maxAttempts : Nat) :
    ∀ k a n, maxAttempts - a ≤ k → a ≤ maxAttempts →
      waitForGtagFrom avail maxAttempts a = some n →
      a ≤ n ∧ n ≤ maxAttempts ∧ avail n = true ∧
        ∀ m, a ≤ m → m < n → avail m = false := by
  intro k
  induction k with
  | zero =>
      intro a n hk ha hres
      rw [waitForGtagFrom_unfold] at hres
      by_cases hav : avail a = true
      · rw [if_pos hav] at hres
        cases hres
        exact ⟨Nat.le_refl a, ha, hav, fun m hm1 hm2 => absurd (Nat.lt_of_le_of_lt hm1 hm2) (Nat.lt_irrefl a)⟩
      · rw [if_neg hav, if_pos (by omega : a ≥ maxAttempts)] at hres
        cases hres
  | succ k ih =>
      intro a n hk ha hres
      rw [waitForGtagFrom_unfold] at hres
      by_cases hav : avail a = true
      · rw [if_pos hav] at hres
        cases hres
        exact ⟨Nat.le_refl a, ha, hav, fun m hm1 hm2 => absurd (Nat.lt_of_le_of_lt hm1 hm2) (Nat.lt_irrefl a)⟩
      · by_cases hcap : a ≥ maxAttempts
        · rw [if_neg hav, if_pos hcap] at hres
          cases hres
        · rw [if_neg hav, if_neg hcap] at hres
          obtain ⟨h1, h2, h3, h4⟩ := ih (a + 1) n (by omega) (by omega) hres
          refine ⟨by omega, h2, h3, fun m hm1 hm2 => ?_⟩
          by_cases hma : m = a
          · subst hma
            exact Bool.eq_false_iff.mpr fun hc => hav hc
          · exact h4 m (by omega) hm2

/-- The poll loop entered at tick `a ≤ maxAttempts` gives up silently exactly
when gtag is absent at every remaining polled tick. -/
theorem waitForGtagFrom_none_iff (avail : Nat → Bool) (maxAttempts : Nat) :
    ∀ k a, maxAttempts - a ≤ k → a ≤ maxAttempts →
      (waitForGtagFrom avail maxAttempts a = none ↔
        ∀ n, a ≤ n → n ≤ maxAttempts → avail n = false) := by
  intro k
  induction k with
  | zero =>
      intro a hk ha
      have haM : a = maxAttempts := by omega
      subst haM
      rw [waitForGtagFrom_unfold]
      by_cases hav : avail a = true
      · rw [if_pos hav]
        constructor
        · intro h; cases h
        · intro h
          have := h a (Nat.le_refl a) (Nat.le_refl a)
          rw [hav] at this
          cases this
      · rw [if_neg hav, if_pos (Nat.le_refl a)]
        constructor
        · intro _ n hn1 hn2
          have hna : n = a := by omega
          subst hna
          exact Bool.eq_false_iff.mpr fun hc => hav hc
        · intro _; rfl
  | succ k ih =>
      intro a hk ha
      rw [waitForGtagFrom_unfold]
      by_cases hav : avail a = true
      · rw [if_pos hav]
        constructor
        · intro h; cases h
        · intro h
          have := h a (Nat.le_refl a) ha
          rw [hav] at this
          cases this
      · by_cases hcap : a ≥ maxAttempts
        · have haM : a = maxAttempts := by omega
          subst haM
          rw [if_neg hav, if_pos (Nat.le_refl a)]
          constructor
          · intro _ n hn1 hn2
            have hna : n = a := by omega
            subst hna
            exact Bool.eq_false_iff.mpr fun hc => hav hc
          · intro _; rfl
        · rw [if_neg hav, if_neg hcap]
          rw [ih (a + 1) (by omega) (by omega)]
          constructor
          · intro h n hn1 hn2
            by_cases hna : n = a
            · subst hna
              exact Bool.eq_false_iff.mpr fun hc => hav hc
            · exact h n (by omega) hn2
          · intro h n hn1 hn2
            exact h n (by omega) hn2

/-! ### Claim theorems -/

/-- Claim C5: with the default budget, `waitForGtag` polls at most 50 times
(an invocation tick `n` satisfies `1 ≤ n ≤ 50`); when gtag becomes available
at some polled tick within the budget, the callback is invoked exactly once,
at the first such tick, and polling stops there; when gtag is available at no
polled tick in the budget, the poll gives up silently (`none`) after the 50th
attempt and the callback is never invoked. -/
theorem waitForGtag_default_budget (avail : Nat → Bool) :
    (∀ n, waitForGtag avail 50 = some n →
        1 ≤ n ∧ n ≤ 50 ∧ avail n = true ∧ ∀ m, 1 ≤ m → m < n → avail m = false) ∧
    (waitForGtag avail 50 = none ↔ ∀ n, 1 ≤ n → n ≤ 50 → avail n = false) := by
  constructor
  · intro n h
    exact waitForGtagFrom_some_spec avail 50 49 1 n (by omega) (by omega) h
  · exact waitForGtagFrom_none_iff avail 50 49 1 (by omega) (by omega)

/-- Witness for C5: with gtag appearing at the third tick, the callback runs
at tick 3, which is within budget, and ticks 1 and 2 saw no gtag. -/
theorem waitForGtag_default_budget_witness :
    1 ≤ 3 ∧ 3 ≤ 50 ∧ availThird 3 = true ∧
      ∀ m, 1 ≤ m → m < 3 → availThird m = false :=
  (waitForGtag_default_budget availThird).1 3 (by
    rw [waitForGtag, waitForGtagFrom_unfold, waitForGtagFrom_unfold, waitForGtagFrom_unfold]
    rfl)

/-- Claim C1: in a browser whose user agent matches neither the mobile nor
the tablet regex, the result is decided by the width thresholds alone:
`mobile` below 768, `tablet` in `[768, 1024)`, `desktop` from 1024 up. -/
theorem getDeviceType_width_thresholds (env : BrowserEnv)
    (hw : env.hasWindow = true)
    (hm : testPatterns mobileRegexPatterns (toLowerStr env.userAgent) = false)
    (ht : testPatterns tabletRegexPatterns (toLowerStr env.userAgent) = false) :
    (env.innerWidth < 768 → getDeviceType env = DeviceType.mobile) ∧
    (768 ≤ env.innerWidth → env.innerWidth < 1024 → getDeviceType env = DeviceType.tablet) ∧
    (1024 ≤ env.innerWidth → getDeviceType env = DeviceType.desktop) := by
  simp only [getDeviceType, hw, hm, ht]
  refine ⟨?_, ?_, ?_⟩ <;> intros <;> split_ifs <;> first | rfl | omega | (simp_all <;> omega)

/-- Witness for C1: a plain desktop user agent at width 500 resolves to
`mobile`. -/
theorem getDeviceType_width_thresholds_witness :
    getDeviceType envFirefox = DeviceType.mobile :=
  (getDeviceType_width_thresholds envFirefox rfl (by decide) (by decide)).1 (by decide)

/-- Claim C9: the user-agent checks take precedence over the width
thresholds: whenever the lowercased user agent matches the mobile regex the
result is `mobile` at every width, and whenever it matches the tablet regex
without matching the mobile one the result is `tablet` at every width. -/
theorem getDeviceType_ua_precedence (env : BrowserEnv) (hw : env.hasWindow = true) :
    (testPatterns mobileRegexPatterns (toLowerStr env.userAgent) = true →
      getDeviceType env = DeviceType.mobile) ∧
    (testPatterns mobileRegexPatterns (toLowerStr env.userAgent) = false →
      testPatterns tabletRegexPatterns (toLowerStr env.userAgent) = true →
      getDeviceType env = DeviceType.tablet) := by
  constructor
  · intro hm
    simp only [getDeviceType, hw, hm]
    rfl
  · intro hm ht
    simp only [getDeviceType, hw, hm, ht]
    rfl

/-- Witness for C9: an iPad user agent resolves to `tablet` even at width
1920. -/
theorem getDeviceType_ua_precedence_witness :
    getDeviceType envIpad = DeviceType.tablet :=
  (getDeviceType_ua_precedence envIpad rfl).2 (by decide) (by decide)

/-- Every event `sendEvent` delivers carries exactly the property object it
was handed. -/
theorem sendEvent_sent_props (env : GtagEnv) (gtagAvailable : Bool) (eventName : String)
    (props : PropBag) (log : SendLog)
    (h : sendEvent env gtagAvailable eventName props = Except.ok log) :
    ∀ ev ∈ log.sent, ev.props = props := by
  unfold sendEvent callGtag at h
  cases gtagAvailable with
  | false =>
      simp only [Bool.false_eq_true, if_false, Except.ok.injEq] at h
      subst h
      intro ev hev
      cases hev
  | true =>
      simp only [if_true] at h
      cases hres : env.callResult with
      | ok u =>
          rw [hres] at h
          simp only [Except.ok.injEq] at h
          subst h
          intro ev hev
          cases hev with
          | head => rfl
          | tail _ htl => cases htl
      | error e =>
          rw [hres] at h
          simp only [Except.ok.injEq] at h
          subst h
          intro ev hev
          cases hev

/-- `sendEvent` never surfaces an exception: the try/catch converts every
outcome into an ordinary log. -/
theorem sendEvent_exists_ok (env : GtagEnv) (gtagAvailable : Bool) (eventName : String)
    (props : PropBag) :
    ∃ log, sendEvent env gtagAvailable eventName props = Except.ok log := by
  unfold sendEvent callGtag
  cases gtagAvailable with
  | false => exact ⟨_, rfl⟩
  | true =>
      cases hres : env.callResult with
      | ok u => exact ⟨_, rfl⟩
      | error e => exact ⟨_, rfl⟩

/-- Every event a `trackEvent` call delivers carries the enriched property
object built at call entry. -/
theorem trackEvent_sent_props (env : GtagEnv) (eventName : String)
    (properties : Option PropBag) (now : String) (log : SendLog)
    (hlog : trackEvent env eventName properties now = Except.ok log) :
    ∀ ev ∈ log.sent, ev.props = enrichedProperties properties now := by
  unfold trackEvent at hlog
  cases hA : env.availNow with
  | true =>
      rw [hA] at hlog
      simp only [if_true] at hlog
      exact sendEvent_sent_props _ _ _ _ _ hlog
  | false =>
      rw [hA] at hlog
      simp only [Bool.false_eq_true, if_false] at hlog
      cases hfind : waitForGtag env.availAt 50 with
      | some n =>
          rw [hfind] at hlog
          exact sendEvent_sent_props _ _ _ _ _ hlog
      | none =>
          rw [hfind] at hlog
          simp only [Except.ok.injEq] at hlog
          subst hlog
          intro ev hev
          cases hev

/-- Claim C2: for every event name and every properties argument, present or
absent, each properties object `trackEvent` delivers to gtag contains a
`timestamp` field holding the ISO timestamp generated at call entry, before
any send happens. -/
theorem trackEvent_timestamp_attached (env : GtagEnv) (eventName : String)
    (properties : Option PropBag) (now : String) (log : SendLog)
    (hlog : trackEvent env eventName properties now = Except.ok log) :
    ∀ ev ∈ log.sent, ev.props "timestamp" = some (JSValue.vStr now) := by
  intro ev hev
  rw [trackEvent_sent_props env eventName properties now log hlog ev hev]
  simp [enrichedProperties]

/-- Witness for C2: a call with no properties argument delivers a properties
object whose `timestamp` field is the generated timestamp. -/
theorem trackEvent_timestamp_attached_witness :
    (enrichedProperties none "2025-01-01T00:00:00.000Z") "timestamp"
      = some (JSValue.vStr "2025-01-01T00:00:00.000Z") :=
  trackEvent_timestamp_attached envOkNow "LandingPg_CTA_Clicked" none
    "2025-01-01T00:00:00.000Z"
    { sent := [{ name := "LandingPg_CTA_Clicked",
                 props := enrichedProperties none "2025-01-01T00:00:00.000Z" }],
      errors := [] }
    rfl
    { name := "LandingPg_CTA_Clicked",
      props := enrichedProperties none "2025-01-01T00:00:00.000Z" }
    (List.Mem.head _)

/-- Claim C10: in every properties object `trackEvent` delivers, each
caller-supplied key other than `timestamp` keeps its caller-supplied value,
while a caller-supplied `timestamp` is overwritten by the freshly generated
timestamp. -/
theorem trackEvent_preserves_caller_keys (env : GtagEnv) (eventName : String)
    (properties : PropBag) (now : String) (log : SendLog)
    (hlog : trackEvent env eventName (some properties) now = Except.ok log) :
    ∀ ev ∈ log.sent,
      (∀ key, key ≠ "timestamp" → ev.props key = properties key) ∧
      ev.props "timestamp" = some (JSValue.vStr now) := by
  intro ev hev
  rw [trackEvent_sent_props env eventName (some properties) now log hlog ev hev]
  constructor
  · intro key hk
    simp [enrichedProperties, hk]
  · simp [enrichedProperties]

/-- Witness for C10: a bag carrying `cta_position` and a stale `timestamp` is
delivered with `cta_position` intact and `timestamp` overwritten. -/
theorem trackEvent_preserves_caller_keys_witness :
    (enrichedProperties (some propsWithStaleTs) "2025-06-01T12:00:00.000Z") "cta_position"
        = propsWithStaleTs "cta_position" ∧
    (enrichedProperties (some propsWithStaleTs) "2025-06-01T12:00:00.000Z") "timestamp"
        = some (JSValue.vStr "2025-06-01T12:00:00.000Z") := by
  have h := trackEvent_preserves_caller_keys envOkNow "LandingPg_CTA_Clicked"
    propsWithStaleTs "2025-06-01T12:00:00.000Z"
    { sent := [{ name := "LandingPg_CTA_Clicked",
                 props := enrichedProperties (some propsWithStaleTs) "2025-06-01T12:00:00.000Z" }],
      errors := [] }
    rfl
    { name := "LandingPg_CTA_Clicked",
      props := enrichedProperties (some propsWithStaleTs) "2025-06-01T12:00:00.000Z" }
    (List.Mem.head _)
  exact ⟨h.1 "cta_position" (by decide), h.2⟩

/-- Claim C7: `trackEvent` never propagates an exception to its caller — its
result is always `Except.ok`.  When the underlying gtag call throws, the
error is caught and logged (`console.error`) and nothing is sent, both when
gtag was present at call time and when the call happened after a successful
poll. -/
theorem trackEvent_never_throws (env : GtagEnv) (eventName : String)
    (properties : Option PropBag) (now : String) :
    (∃ log, trackEvent env eventName properties now = Except.ok log) ∧
    (∀ e, env.callResult = Except.error e → env.availNow = true →
      trackEvent env eventName properties now
        = Except.ok { sent := [], errors := [errMsg e] }) ∧
    (∀ e n, env.callResult = Except.error e → env.availNow = false →
      waitForGtag env.availAt 50 = some n →
      trackEvent env eventName properties now
        = Except.ok { sent := [], errors := [errMsg e] }) := by
  refine ⟨?_, ?_, ?_⟩
  · unfold trackEvent
    cases hA : env.availNow with
    | true =>
        simp only [if_true]
        exact sendEvent_exists_ok _ _ _ _
    | false =>
        simp only [Bool.false_eq_true, if_false]
        cases hfind : waitForGtag env.availAt 50 with
        | some n => exact sendEvent_exists_ok _ _ _ _
        | none => exact ⟨_, rfl⟩
  · intro e he hA
    unfold trackEvent
    rw [hA]
    simp only [if_true]
    unfold sendEvent callGtag
    rw [he]
    rfl
  · intro e n he hA hfind
    have hn : env.availAt n = true :=
      (waitForGtagFrom_some_spec env.availAt 50 49 1 n (by omega) (by omega) hfind).2.2.1
    unfold trackEvent
    rw [hA]
    simp only [Bool.false_eq_true, if_false, hfind]
    rw [hn]
    unfold sendEvent callGtag
    rw [he]
    rfl

/-- Witness for C7: with gtag present but throwing, the call returns an
ordinary log with the error recorded and nothing sent. -/
theorem trackEvent_never_throws_witness :
    trackEvent envErrNow "LandingPg_Scroll" none "2025-01-01T00:00:00.000Z"
      = Except.ok { sent := [], errors := [errMsg "boom"] } :=
  (trackEvent_never_throws envErrNow "LandingPg_Scroll" none
    "2025-01-01T00:00:00.000Z").2.1 "boom" rfl rfl

/-- Structural invariant of the debounce discipline: at most one timer is
pending, and any pending timer is the one whose id the `scrollTimeout`
variable holds. -/
def timerInv (s : ScrollState) : Prop :=
  s.timers.length ≤ 1 ∧ ∀ t ∈ s.timers, s.scrollTimeout = some t.1

/-- A scheduled or emitted sample is sound when its captured percent strictly
exceeded the maximum recorded at sampling time. -/
def schedOk (t : Sched) : Prop := t.maxBefore < t.percent

/-- Emission invariant: every pending callback and every emission so far came
from a strictly increasing sample. -/
def emitInv (s : ScrollState) : Prop :=
  (∀ t ∈ s.timers, schedOk t.2) ∧ ∀ e ∈ s.emitted, schedOk e

/-- A scroll sample whose percent does not exceed the recorded maximum leaves
the whole state untouched. -/
theorem trackScroll_no_increase (s : ScrollState) (windowHeight documentHeight scrollTop : Nat)
    (h : scrollPercent windowHeight documentHeight scrollTop ≤ s.maxScrollDepth) :
    trackScroll s windowHeight documentHeight scrollTop = s := by
  unfold trackScroll
  rw [if_neg (by omega)]

/-- Under `timerInv`, the `clearTimeout` step of an increasing sample empties
the pending set. -/
theorem timers_cleared_of_inv (s : ScrollState)
    (h : ∀ t ∈ s.timers, s.scrollTimeout = some t.1) :
    (match s.scrollTimeout with
     | some id => s.timers.filter (fun t => !(t.1 == id))
     | none => s.timers) = [] := by
  cases hst : s.scrollTimeout with
  | none =>
      cases htm : s.timers with
      | nil => rfl
      | cons t ts =>
          have := h t (by rw [htm]; exact List.Mem.head _)
          rw [hst] at this
          cases this
  | some id =>
      simp only []
      rw [List.filter_eq_nil_iff]
      intro t ht
      have := h t ht
      rw [hst] at this
      cases this
      simp

/-- An increasing sample cancels whatever timer was pending and leaves
exactly one freshly scheduled timer, carrying the new percent and the old
maximum. -/
theorem trackScroll_increase (s : ScrollState) (windowHeight documentHeight scrollTop : Nat)
    (hinv : ∀ t ∈ s.timers, s.scrollTimeout = some t.1)
    (h : s.maxScrollDepth < scrollPercent windowHeight documentHeight scrollTop) :
    trackScroll s windowHeight documentHeight scrollTop =
      { maxScrollDepth := scrollPercent windowHeight documentHeight scrollTop
        scrollTimeout := some s.nextTimerId
        timers := [(s.nextTimerId,
          { percent := scrollPercent windowHeight documentHeight scrollTop
            maxBefore := s.maxScrollDepth })]
        nextTimerId := s.nextTimerId + 1
        emitted := s.emitted } := by
  unfold trackScroll
  rw [if_pos (by omega)]
  rw [timers_cleared_of_inv s hinv]
  rfl

/-- `scrollStep` preserves the single-pending-timer invariant. -/
theorem timerInv_step (s : ScrollState) (e : PageEvent) (h : timerInv s) :
    timerInv (scrollStep s e) := by
  obtain ⟨hlen, hid⟩ := h
  cases e with
  | scroll wh dh st =>
      by_cases hinc : s.maxScrollDepth < scrollPercent wh dh st
      · rw [scrollStep, trackScroll_increase s wh dh st hid hinc]
        constructor
        · simp
        · intro t ht
          cases ht with
          | head => rfl
          | tail _ htl => cases htl
      · rw [scrollStep, trackScroll_no_increase s wh dh st (by omega)]
        exact ⟨hlen, hid⟩
  | timerFires id =>
      rw [scrollStep]
      unfold fireTimer
      cases hfind : s.timers.find? (fun t => t.1 == id) with
      | none => exact ⟨hlen, hid⟩
      | some t =>
          constructor
          · calc (s.timers.filter (fun u => !(u.1 == id))).length
                ≤ s.timers.length := List.length_filter_le _ _
              _ ≤ 1 := hlen
          · intro u hu
            exact hid u (List.mem_of_mem_filter hu)

/-- `scrollStep` preserves the emission invariant. -/
theorem emitInv_step (s : ScrollState) (e : PageEvent) (hti : timerInv s) (h : emitInv s) :
    emitInv (scrollStep s e) := by
  obtain ⟨htm, hem⟩ := h
  cases e with
  | scroll wh dh st =>
      by_cases hinc : s.maxScrollDepth < scrollPercent wh dh st
      · rw [scrollStep, trackScroll_increase s wh dh st hti.2 hinc]
        constructor
        · intro t ht
          cases ht with
          | head => exact hinc
          | tail _ htl => cases htl
        · exact hem
      · rw [scrollStep, trackScroll_no_increase s wh dh st (by omega)]
        exact ⟨htm, hem⟩
  | timerFires id =>
      rw [scrollStep]
      unfold fireTimer
      cases hfind : s.timers.find? (fun t => t.1 == id) with
      | none => exact ⟨htm, hem⟩
      | some t =>
          constructor
          · intro u hu
            exact htm u (List.mem_of_mem_filter hu)
          · intro x hx
            rw [List.mem_append] at hx
            cases hx with
            | inl hx => exact hem x hx
            | inr hx =>
                cases hx with
                | head =>
                    exact htm t (List.mem_of_find?_eq_some hfind)
                | tail _ htl => cases htl

/-- Both invariants hold in every reachable state of the scroll tracker. -/
theorem runScroll_inv (events : List PageEvent) :
    ∀ s, timerInv s ∧ emitInv s →
      timerInv (events.foldl scrollStep s) ∧ emitInv (events.foldl scrollStep s) := by
  induction events with
  | nil => intro s h; exact h
  | cons e es ih =>
      intro s h
      exact ih (scrollStep s e)
        ⟨timerInv_step s e h.1, emitInv_step s e h.1 h.2⟩

/-- The initial module state satisfies both invariants. -/
theorem scrollInit_inv : timerInv scrollInit ∧ emitInv scrollInit := by
  refine ⟨⟨?_, ?_⟩, ?_, ?_⟩ <;> simp [scrollInit]

/-- Claim C3: after `initScrollTracking`, over every sequence of scroll
samples and timer elapses, each emitted `LandingPg_Scroll` event came from a
sample whose computed percent strictly exceeded the maximum recorded at the
time of that sample, and a sample whose percent does not exceed the recorded
maximum leaves the state untouched, so it never leads to an emission. -/
theorem scroll_emits_only_on_strict_increase (events : List PageEvent) :
    (∀ e ∈ (runScroll events).emitted, e.maxBefore < e.percent) ∧
    ∀ s windowHeight documentHeight scrollTop,
      scrollPercent windowHeight documentHeight scrollTop ≤ s.maxScrollDepth →
      trackScroll s windowHeight documentHeight scrollTop = s := by
  constructor
  · exact ((runScroll_inv events scrollInit scrollInit_inv).2).2
  · exact trackScroll_no_increase

/-- Witness for C3: one sample raising the percent to 50 followed by the
debounce timer firing emits a sample recorded against the old maximum 0. -/
theorem scroll_emits_only_on_strict_increase_witness :
    ({ percent := 50, maxBefore := 0 } : Sched).maxBefore
      < ({ percent := 50, maxBefore := 0 } : Sched).percent :=
  (scroll_emits_only_on_strict_increase
      [PageEvent.scroll 100 300 100, PageEvent.timerFires 1]).1
    { percent := 50, maxBefore := 0 } (by decide)

/-- Claim C6 (amended): after `initScrollTracking` at most one debounce timer
is pending at any time; a scroll sample that strictly increases the recorded
maximum cancels any pending timer and replaces it with a single freshly
scheduled one, while a sample that does not increase the maximum leaves the
pending timer (and all other state) untouched. -/
theorem scroll_single_pending_timer (events : List PageEvent) :
    (runScroll events).timers.length ≤ 1 ∧
    (∀ s windowHeight documentHeight scrollTop,
        timerInv s →
        s.maxScrollDepth < scrollPercent windowHeight documentHeight scrollTop →
        (trackScroll s windowHeight documentHeight scrollTop).timers =
          [(s.nextTimerId,
            { percent := scrollPercent windowHeight documentHeight scrollTop
              maxBefore := s.maxScrollDepth })]) ∧
    (∀ s windowHeight documentHeight scrollTop,
        scrollPercent windowHeight documentHeight scrollTop ≤ s.maxScrollDepth →
        trackScroll s windowHeight documentHeight scrollTop = s) := by
  refine ⟨?_, ?_, ?_⟩
  · exact ((runScroll_inv events scrollInit scrollInit_inv).1).1
  · intro s wh dh st hinv hinc
    rw [trackScroll_increase s wh dh st hinv.2 hinc]
  · exact trackScroll_no_increase

/-- Witness for C6 (amended): after an increasing sample, exactly the fresh
timer with id 1 is pending. -/
theorem scroll_single_pending_timer_witness :
    (trackScroll scrollInit 100 300 100).timers
      = [(1, { percent := 50, maxBefore := 0 })] :=
  (scroll_single_pending_timer []).2.1 scrollInit 100 300 100
    (by constructor <;> simp [scrollInit])
    (by decide)

/-- Counterexample for C6 as stated: with timer 1 pending (and the next fresh
id being 2), a scroll sample whose percent (30) does not exceed the recorded
maximum (50) leaves the old timer 1 pending — the event neither cancels nor
replaces the pending timer, and no fresh timer with id 2 appears. -/
theorem scroll_debounce_counterexample :
    s1ex.timers = [(1, { percent := 50, maxBefore := 0 })] ∧
    s1ex.nextTimerId = 2 ∧
    scrollStep s1ex (PageEvent.scroll 100 300 60) = s1ex := by decide

/-- Claim C4 (failing input): with the section element present, a single
IntersectionObserver callback whose batch holds two intersecting entries
makes `trackSectionView`'s observer call `trackEvent` twice in one page
load — `entries.forEach` keeps iterating after the first `disconnect`. -/
theorem trackSectionView_double_emission :
    ((trackSectionView (fun _ => true) "hero" "LandingPg_Hero_Viewed" scrollInit).1.map
        (fun obs =>
          (observerDeliver obs
            [[{ isIntersecting := true }, { isIntersecting := true }]]).calls)) =
      some [("LandingPg_Hero_Viewed", "hero"), ("LandingPg_Hero_Viewed", "hero")] := by
  decide

/-- Claim C8: when no element with the given id exists, `trackSectionView`
returns early: no observer is created and the module state is unchanged (so
no event can ever be emitted for this call). -/
theorem trackSectionView_missing_element (doc : String → Bool)
    (sectionId eventName : String) (s : ScrollState)
    (h : doc sectionId = false) :
    trackSectionView doc sectionId eventName s = (none, s) := by
  simp [trackSectionView, h]

/-- Witness for C8: a document resolving no ids yields no observer and the
untouched initial state. -/
theorem trackSectionView_missing_element_witness :
    trackSectionView (fun _ => false) "pricing" "LandingPg_Pricing_Viewed" scrollInit
      = (none, scrollInit) :=
  trackSectionView_missing_element (fun _ => false) "pricing" "LandingPg_Pricing_Viewed"
    scrollInit rfl
